import Mathlib

/-!
Shallow embedding of `src/main.py`, a FastAPI + MongoDB e-commerce backend
(products and orders collections, four business endpoints and a health probe).

Modelling choices:
* Python/JSON floating point numbers (`price`, `total_amount`) are modelled as
  exact rationals `ℚ`.
* MongoDB `ObjectId` values are modelled by their normalized (lowercase)
  24-character hex string; `bson.ObjectId(s)` on a string either parses a
  24-character hex string or raises `InvalidId` (modelled by `Option`).
* The document store is a `Store` record holding the `products` and `orders`
  collections as lists in insertion order, plus a counter from which
  `insert_one` derives the generated identifier.
* Timestamps (`datetime.utcnow()`) are modelled as a `Nat` supplied as an
  explicit `now` argument.
* Response bodies (Python dicts) are association lists `List (String × JVal)`
  built exactly as the source builds them; `HTTPException` is the `Resp.err`
  constructor carrying the status code and detail string.
* Mongo's `$regex` operator with option `i` (used by the `name` filter of
  `GET /products`) is modelled for the fragment of patterns consisting of
  literal characters and the `.` wildcard: case-insensitive unanchored search.
* The health probe's `db.admin.command("ping")` calls a pymongo Collection
  object (`db` is the `ecommerce` Database, so `db.admin` is a Collection and
  `db.admin.command` a sub-collection) and raises TypeError client-side before
  any store access; it is modelled as unconditionally returning that error,
  independent of the store's reachability.
-/

namespace EcomSpec

/-- A hexadecimal digit, as accepted by `bytes.fromhex` inside `bson.ObjectId`. -/
def isHexChar (c : Char) : Bool :=
  c.isDigit || ('a' ≤ c && c ≤ 'f') || ('A' ≤ c && c ≤ 'F')

/-- Lowercase of a string, character by character (defined over the character
list so that it evaluates inside the kernel). -/
def strLower (s : String) : String :=
  String.mk (s.data.map Char.toLower)

/-- Model of `bson.ObjectId(s)` on a string argument: succeeds exactly on 24-character
hex strings, normalizing to lowercase (`str(ObjectId(s))` is lowercase);
otherwise raises `InvalidId` (modelled as `none`). -/
def parseObjectId (s : String) : Option String :=
  if s.length == 24 && s.data.all isHexChar then some (strLower s) else none

/-- The message of `bson.errors.InvalidId` as stringified by `str(e)`. -/
def invalidOidMsg (s : String) : String :=
  "\x27" ++ s ++ "\x27 is not a valid ObjectId, it must be a 12-byte input or a 24-character hex string"

/-- The store-generated identifier for the `n`-th insert: a 24-character hex
rendering of the counter (stands in for MongoDB's ObjectId generation). -/
def genOid (n : Nat) : String :=
  let ds := Nat.toDigits 16 n
  String.mk (List.replicate (24 - ds.length) '0' ++ ds)

/-- Pydantic model `ProductSize`. -/
structure ProductSize where
  size : String
  quantity : Int
deriving DecidableEq, Repr

/-- Pydantic model `ProductRequest`. Note: `price : float` carries no
non-negativity constraint and `sizes : List[ProductSize]` no non-emptiness
constraint in the source. -/
structure ProductRequest where
  name : String
  price : ℚ
  description : Option String
  sizes : List ProductSize
deriving DecidableEq, Repr

/-- A document of the `products` collection as written by `create_product`. -/
structure StoredProduct where
  oid : String
  name : String
  price : ℚ
  description : Option String
  sizes : List ProductSize
  created_at : Nat
deriving DecidableEq, Repr

/-- Pydantic model `OrderItem`. -/
structure OrderItem where
  product_id : String
  bought_quantity : Int
  total_amount : ℚ
deriving DecidableEq, Repr

/-- Pydantic model `OrderRequest`. Note: `items : List[OrderItem]` carries no
non-emptiness constraint in the source. -/
structure OrderRequest where
  user_id : String
  items : List OrderItem
  user_address : String
deriving DecidableEq, Repr

/-- A document of the `orders` collection as written by `create_order`. -/
structure StoredOrder where
  oid : String
  user_id : String
  items : List OrderItem
  user_address : String
  timestamp : Nat
  total_amount : ℚ
deriving DecidableEq, Repr

/-- The document store: the two collections in insertion order plus the
counter from which generated identifiers are derived. -/
structure Store where
  products : List StoredProduct
  orders : List StoredOrder
  counter : Nat
deriving DecidableEq, Repr

/-- JSON-ish values appearing in response dicts built by the source. -/
inductive JVal where
  | null
  | str (s : String)
  | num (q : ℚ)
  | time (t : Nat)
  | sizesArr (l : List ProductSize)
  | itemsArr (l : List OrderItem)
deriving DecidableEq, Repr

/-- An endpoint outcome: a success body with its status code, or an
`HTTPException` with status code and detail. -/
inductive Resp where
  | ok (status : Nat) (body : List (String × JVal))
  | err (status : Nat) (detail : String)
deriving DecidableEq, Repr

/-- A client-fault (4xx) response. -/
def isClientFault : Resp → Bool
  | .err s _ => 400 ≤ s && s < 500
  | .ok _ _ => false

/-- Function `product_helper` from the source: the response dict for one product.
It maps `_id` to its string form and omits the stored `created_at` field. -/
def product_helper (p : StoredProduct) : List (String × JVal) :=
  [("product_id", JVal.str p.oid),
   ("name", JVal.str p.name),
   ("price", JVal.num p.price),
   ("description", match p.description with | none => JVal.null | some d => JVal.str d),
   ("sizes", JVal.sizesArr p.sizes)]

/-- Function `order_helper` from the source: the response dict for one order. -/
def order_helper (o : StoredOrder) : List (String × JVal) :=
  [("order_id", JVal.str o.oid),
   ("user_id", JVal.str o.user_id),
   ("items", JVal.itemsArr o.items),
   ("user_address", JVal.str o.user_address),
   ("timestamp", JVal.time o.timestamp),
   ("total_amount", JVal.num o.total_amount)]

/-- Python truthiness of an `Optional[str]`: `None` and `""` are falsy.
This is what the `if name:` / `if size:` guards of `list_products` test. -/
def strTruthy : Option String → Bool
  | none => false
  | some s => !(s == "")

/-- One pattern character against one text character, case-insensitively:
`.` is the any-character wildcard, other characters match literally
(modelled fragment of the store's regex engine). -/
def chMatch (pc c : Char) : Bool :=
  pc == '.' || pc.toLower == c.toLower

/-- Match the whole pattern starting at the head of the text. -/
def matchFrom : List Char → List Char → Bool
  | [], _ => true
  | _ :: _, [] => false
  | pc :: ps, c :: cs => chMatch pc c && matchFrom ps cs

/-- Unanchored search: does the pattern match at some position of the text? -/
def searchAnywhere (p : List Char) : List Char → Bool
  | [] => matchFrom p []
  | c :: cs => matchFrom p (c :: cs) || searchAnywhere p cs

/-- Mongo's `{"$regex": pattern, "$options": "i"}` on a document field,
modelled for patterns of literal characters and the `.` wildcard:
case-insensitive unanchored search of the pattern in the text. -/
def ciRegexSearch (pattern text : String) : Bool :=
  searchAnywhere pattern.data text.data

/-- Regex metacharacters (PCRE): patterns free of these read as plain text. -/
def regexMeta (c : Char) : Bool :=
  c == '\\' || c == '^' || c == '$' || c == '.' || c == '|' || c == '?' ||
  c == '*' || c == '+' || c == '(' || c == ')' || c == '[' || c == ']' ||
  c == '\x7b' || c == '\x7d'

/-- Is `n` a contiguous sublist of `s`? -/
def containsSub (n : List Char) : List Char → Bool
  | [] => n.isPrefixOf []
  | c :: cs => n.isPrefixOf (c :: cs) || containsSub n cs

/-- Case-insensitive substring containment, following the spec's words for the
`name` filter: the product name contains the query as a case-insensitive
substring. Stated for comparison with `ciRegexSearch`, which is what the code
actually requests from the store. -/
def ciContains (needle hay : String) : Bool :=
  containsSub (needle.data.map Char.toLower) (hay.data.map Char.toLower)

/-- The query filter built by `list_products`, applied to one product:
a conjunction of the (truthy) name condition and the (truthy) size condition.
`sizes.size` equality in Mongo matches documents where some array entry's
`size` equals the value exactly. -/
def productMatches (nameF sizeF : Option String) (p : StoredProduct) : Bool :=
  (match nameF with
   | none => true
   | some n => ciRegexSearch n p.name) &&
  (match sizeF with
   | none => true
   | some s => p.sizes.any fun e => e.size == s)

/-- Mongo cursor `.limit`: a limit of 0 is equivalent to no limit. -/
def applyLimit (limit : Nat) (xs : List α) : List α :=
  if limit = 0 then xs else xs.take limit

/-- Endpoint `POST /products` (`create_product`): stamps `created_at`, inserts the
document; `insert_one` reports the generated identifier, so the success branch
returns 201 with the identifier's string form. -/
def create_product (st : Store) (req : ProductRequest) (now : Nat) : Resp × Store :=
  let newOid := genOid st.counter
  let p : StoredProduct :=
    { oid := newOid, name := req.name, price := req.price,
      description := req.description, sizes := req.sizes, created_at := now }
  (Resp.ok 201 [("product_id", JVal.str newOid)],
   { st with products := st.products ++ [p], counter := st.counter + 1 })

/-- Endpoint `GET /products` (`list_products`): builds the query filter with Python
truthiness guards, runs `find(filter).skip(offset).limit(limit)` and maps each
document through `product_helper`. Returned as the list bound to the
`"products"` key of the 200 body. -/
def list_products (st : Store) (name size : Option String) (limit offset : Nat) :
    List (List (String × JVal)) :=
  let nameF := if strTruthy name then name else none
  let sizeF := if strTruthy size then size else none
  (applyLimit limit ((st.products.filter (productMatches nameF sizeF)).drop offset)).map
    product_helper

/-- Point lookup `db.products.find_one({"_id": oid})` for an already-parsed
ObjectId. -/
def findProduct (st : Store) (oid : String) : Option StoredProduct :=
  st.products.find? fun p => p.oid == oid

/-- The validation loop of `create_order`: for each item in order,
`ObjectId(item.product_id)` (an `InvalidId` escapes the loop and is converted
by the outer handler into a 500 carrying `str(e)`), then the point lookup
(a miss raises 400 "Product ... not found"). Returns the first error, if any. -/
def checkItems (st : Store) : List OrderItem → Option Resp
  | [] => none
  | item :: rest =>
    match parseObjectId item.product_id with
    | none => some (Resp.err 500 (invalidOidMsg item.product_id))
    | some oid =>
      match findProduct st oid with
      | some _ => checkItems st rest
      | none => some (Resp.err 400 ("Product " ++ item.product_id ++ " not found"))

/-- Does this item's `product_id` parse and resolve to a stored product? -/
def itemResolves (st : Store) (item : OrderItem) : Bool :=
  match parseObjectId item.product_id with
  | none => false
  | some oid => (findProduct st oid).isSome

/-- Endpoint `POST /orders` (`create_order`): run the per-item validation loop; on
success compute `total_amount` as the sum of the items' supplied amounts,
stamp the timestamp and insert the order, returning 201 with the generated
identifier. A failed check leaves the store untouched. -/
def create_order (st : Store) (req : OrderRequest) (now : Nat) : Resp × Store :=
  match checkItems st req.items with
  | some e => (e, st)
  | none =>
    let total := (req.items.map fun i => i.total_amount).sum
    let newOid := genOid st.counter
    let o : StoredOrder :=
      { oid := newOid, user_id := req.user_id, items := req.items,
        user_address := req.user_address, timestamp := now, total_amount := total }
    (Resp.ok 201 [("id", JVal.str newOid)],
     { st with orders := st.orders ++ [o], counter := st.counter + 1 })

/-- Endpoint `GET /orders/\x7buser_id\x7d` (`get_user_orders`): exact match on `user_id`,
skip/limit pagination, each document mapped through `order_helper`. -/
def get_user_orders (st : Store) (user_id : String) (limit offset : Nat) :
    List (List (String × JVal)) :=
  (applyLimit limit ((st.orders.filter fun o => o.user_id == user_id).drop offset)).map
    order_helper

/-- Message of the TypeError raised by calling the pymongo sub-collection
`admin.command`: since its dotted name contains a period, `Collection.__call__`
picks its second branch, naming a Collection object. -/
def collectionNotCallableMsg : String :=
  "\x27Collection\x27 object is not callable. If you meant to call the \x27command\x27 method on a \x27Collection\x27 object it is failing because no such method exists."

/-- The try-block expression `db.admin.command("ping")` of `health_check`.
In the source `db` is the `ecommerce` Database handle, so `db.admin` is the
Collection `ecommerce.admin` and `db.admin.command` the sub-collection
`ecommerce.admin.command`; calling a Collection raises TypeError client-side,
before any store access. The outcome is therefore `Except.error` with the
TypeError text for every store state (the argument is ignored exactly because
no network operation is ever issued). -/
def adminPing (_storeReachable : Bool) : Except String Unit :=
  Except.error collectionNotCallableMsg

/-- Endpoint `GET /health` (`health_check`): evaluates the ping expression
under `try`; the success branch would return the healthy body, the `except`
branch returns the unhealthy body with `str(e)` embedded. Both branches are
plain dicts, hence HTTP 200. The argument is the store's reachability, which
`adminPing` ignores. -/
def health_check (storeReachable : Bool) : Nat × List (String × JVal) :=
  match adminPing storeReachable with
  | .ok _ => (200, [("status", JVal.str "healthy"), ("database", JVal.str "connected")])
  | .error e =>
      (200, [("status", JVal.str "unhealthy"), ("database", JVal.str "disconnected"),
             ("error", JVal.str e)])

/-! Concrete sample data used by witnesses and counterexamples. -/

/-- A store with empty collections. -/
def emptyStore : Store := { products := [], orders := [], counter := 0 }

/-- A sample stored product. -/
def prodA : StoredProduct :=
  { oid := "aaaaaaaaaaaaaaaaaaaaaaaa", name := "aBc", price := 19,
    description := some "a tee", sizes := [{ size := "M", quantity := 5 }], created_at := 7 }

/-- A store holding just `prodA`. -/
def stA : Store := { products := [prodA], orders := [], counter := 1 }

/-- An order item referencing `prodA` by its identifier. -/
def itemA : OrderItem :=
  { product_id := "aaaaaaaaaaaaaaaaaaaaaaaa", bought_quantity := 2, total_amount := 40 }

/-- An order item with a well-formed identifier that matches no stored product. -/
def itemMissing : OrderItem :=
  { product_id := "bbbbbbbbbbbbbbbbbbbbbbbb", bought_quantity := 1, total_amount := 5 }

/-! Helper lemmas about the validation loop of `create_order`. -/

/-- Items that all resolve are passed over by the validation loop. -/
theorem checkItems_append_of_resolves (st : Store) (pre l : List OrderItem)
    (h : ∀ i ∈ pre, itemResolves st i = true) :
    checkItems st (pre ++ l) = checkItems st l := by
  induction pre with
  | nil => rfl
  | cons a as ih =>
    have ha : itemResolves st a = true := h a (by simp)
    unfold itemResolves at ha
    cases hp : parseObjectId a.product_id with
    | none => simp [hp] at ha
    | some oid =>
      simp only [hp] at ha
      cases hf : findProduct st oid with
      | none => simp [hf] at ha
      | some q =>
        show checkItems st (a :: (as ++ l)) = checkItems st l
        simp only [checkItems, hp, hf]
        exact ih fun i hi => h i (by simp [hi])

/-- If every item resolves, the validation loop reports no error. -/
theorem checkItems_eq_none_of_resolves (st : Store) (l : List OrderItem)
    (h : ∀ i ∈ l, itemResolves st i = true) :
    checkItems st l = none := by
  have := checkItems_append_of_resolves st l [] h
  simpa using this

/-- C2: for a CreateOrder request in which every item's product_id resolves to
an existing product, the call succeeds with status 201 and the generated
identifier, and the persisted order's `total_amount` is exactly the sum of the
caller-supplied per-item `total_amount` values — independent of the stored
product prices and quantities (the store `st` is universally quantified), with
no rounding (amounts are exact rationals). -/
theorem create_order_total_is_sum (st : Store) (req : OrderRequest) (now : Nat)
    (h : ∀ i ∈ req.items, itemResolves st i = true) :
    create_order st req now =
      (Resp.ok 201 [("id", JVal.str (genOid st.counter))],
       { st with
         orders := st.orders ++
           [{ oid := genOid st.counter, user_id := req.user_id, items := req.items,
              user_address := req.user_address, timestamp := now,
              total_amount := (req.items.map OrderItem.total_amount).sum }],
         counter := st.counter + 1 }) := by
  unfold create_order
  rw [checkItems_eq_none_of_resolves st req.items h]

/-- Witness for C2: the concrete store `stA` and an order buying `prodA`. -/
theorem create_order_total_is_sum_witness :
    create_order stA { user_id := "u1", items := [itemA], user_address := "addr" } 9 =
      (Resp.ok 201 [("id", JVal.str (genOid stA.counter))],
       { stA with
         orders := stA.orders ++
           [{ oid := genOid stA.counter, user_id := "u1", items := [itemA],
              user_address := "addr", timestamp := 9,
              total_amount := ([itemA].map OrderItem.total_amount).sum }],
         counter := stA.counter + 1 }) :=
  create_order_total_is_sum stA { user_id := "u1", items := [itemA], user_address := "addr" } 9
    (by decide)

/-- C4 counterexample: a CreateOrder request with an empty items sequence is
not rejected — on the empty store it returns 201 and persists an order (with
`total_amount` 0), contradicting the claim that it is rejected with a
validation error and nothing is persisted. -/
theorem create_order_empty_items_cx :
    (create_order emptyStore { user_id := "u1", items := [], user_address := "a" } 0).1 =
      Resp.ok 201 [("id", JVal.str (genOid 0))] ∧
    ((create_order emptyStore { user_id := "u1", items := [], user_address := "a" } 0).2).orders =
      [{ oid := genOid 0, user_id := "u1", items := [], user_address := "a",
         timestamp := 0, total_amount := 0 }] := by
  constructor <;> rfl

/-- C4 amended: a CreateOrder request whose items sequence is empty is
accepted: the validation loop passes vacuously and an order with
`total_amount` 0 is persisted (the source places no non-emptiness constraint
on `items`). -/
theorem create_order_empty_items_accepted (st : Store) (req : OrderRequest) (now : Nat)
    (h : req.items = []) :
    create_order st req now =
      (Resp.ok 201 [("id", JVal.str (genOid st.counter))],
       { st with
         orders := st.orders ++
           [{ oid := genOid st.counter, user_id := req.user_id, items := [],
              user_address := req.user_address, timestamp := now, total_amount := 0 }],
         counter := st.counter + 1 }) := by
  unfold create_order
  rw [h]
  rfl

/-- Witness for C4 amended at the concrete store `stA`. -/
theorem create_order_empty_items_accepted_witness :
    create_order stA { user_id := "u2", items := [], user_address := "b" } 4 =
      (Resp.ok 201 [("id", JVal.str (genOid stA.counter))],
       { stA with
         orders := stA.orders ++
           [{ oid := genOid stA.counter, user_id := "u2", items := [],
              user_address := "b", timestamp := 4, total_amount := 0 }],
         counter := stA.counter + 1 }) :=
  create_order_empty_items_accepted stA { user_id := "u2", items := [], user_address := "b" } 4
    rfl

/-- C7 counterexample: a CreateProduct request with a negative price is not
rejected — on the empty store it returns 201 and persists the product with the
negative price, contradicting the claim that it is rejected by validation with
no record created. -/
theorem create_product_negative_price_cx :
    (create_product emptyStore { name := "Tee", price := -5, description := none, sizes := [] }
        3).1 =
      Resp.ok 201 [("product_id", JVal.str (genOid 0))] ∧
    ((create_product emptyStore { name := "Tee", price := -5, description := none, sizes := [] }
        3).2).products =
      [{ oid := genOid 0, name := "Tee", price := -5, description := none, sizes := [],
         created_at := 3 }] := by
  constructor <;> rfl

/-- C7 amended: a negative price passes the request model (which carries no
non-negativity constraint) and the product is persisted with that negative
price; the call succeeds with 201. -/
theorem create_product_accepts_negative_price (st : Store) (req : ProductRequest) (now : Nat)
    (_h : req.price < 0) :
    create_product st req now =
      (Resp.ok 201 [("product_id", JVal.str (genOid st.counter))],
       { st with
         products := st.products ++
           [{ oid := genOid st.counter, name := req.name, price := req.price,
              description := req.description, sizes := req.sizes, created_at := now }],
         counter := st.counter + 1 }) := rfl

/-- Witness for C7 amended at a concrete negative-price request. -/
theorem create_product_accepts_negative_price_witness :
    create_product stA { name := "Hat", price := -2, description := some "d", sizes := [] } 8 =
      (Resp.ok 201 [("product_id", JVal.str (genOid stA.counter))],
       { stA with
         products := stA.products ++
           [{ oid := genOid stA.counter, name := "Hat", price := -2,
              description := some "d", sizes := [], created_at := 8 }],
         counter := stA.counter + 1 }) :=
  create_product_accepts_negative_price stA
    { name := "Hat", price := -2, description := some "d", sizes := [] } 8 (by norm_num)

/-- C8: the health probe never performs a store connectivity check. The
expression `db.admin.command("ping")` calls a pymongo Collection object and
raises TypeError client-side, so for every store state — a reachable store
included — the endpoint returns transport-level 200 with the unhealthy body
carrying the TypeError text, never the healthy body and never a store error
message: the healthy branch of the source is unreachable, contradicting the
claim's reachable-store behavior. -/
theorem health_check_always_unhealthy (storeReachable : Bool) :
    health_check storeReachable =
      (200, [("status", JVal.str "unhealthy"), ("database", JVal.str "disconnected"),
             ("error", JVal.str collectionNotCallableMsg)]) ∧
    (health_check storeReachable).2 ≠
      [("status", JVal.str "healthy"), ("database", JVal.str "connected")] := by
  refine ⟨rfl, ?_⟩
  show [("status", JVal.str "unhealthy"), ("database", JVal.str "disconnected"),
        ("error", JVal.str collectionNotCallableMsg)] ≠
      [("status", JVal.str "healthy"), ("database", JVal.str "connected")]
  decide

/-- C9: with limit 0 both ListProducts and GetUserOrders return every matching
record after the offset skip (Mongo treats limit 0 as no limit), not the empty
sequence. -/
theorem limit_zero_means_no_limit (st : Store) (name size : Option String) (uid : String)
    (offset : Nat) :
    list_products st name size 0 offset =
      ((st.products.filter
          (productMatches (if strTruthy name then name else none)
            (if strTruthy size then size else none))).drop offset).map product_helper ∧
    get_user_orders st uid 0 offset =
      ((st.orders.filter fun o => o.user_id == uid).drop offset).map order_helper := by
  constructor <;> simp [list_products, get_user_orders, applyLimit]

/-- C10: supplying the empty string for the name or the size filter of
ListProducts is the same as omitting the parameter: the Python truthiness
guards treat the empty string as absent. -/
theorem empty_string_filter_ignored (st : Store) (f : Option String) (limit offset : Nat) :
    list_products st (some "") f limit offset = list_products st none f limit offset ∧
    list_products st f (some "") limit offset = list_products st f none limit offset := by
  constructor <;> rfl

/-- C1 counterexample: an item whose product_id ("xyz") corresponds to no
existing product (the store is empty, so no product has that identifier) is
answered with a 500 internal-error response, not a client-fault validation
response, because `ObjectId("xyz")` raises `InvalidId` before the existence
lookup and the handler converts it to a 500. The claim as stated — every
nonexistent product_id yields a client-fault validation response naming the
id — is therefore false; the store is nevertheless unchanged. -/
theorem create_order_missing_product_cx :
    emptyStore.products = [] ∧
    create_order emptyStore { user_id := "u9", items := [⟨"xyz", 1, 5⟩], user_address := "a" }
        0 =
      (Resp.err 500 (invalidOidMsg "xyz"), emptyStore) ∧
    isClientFault
      (create_order emptyStore { user_id := "u9", items := [⟨"xyz", 1, 5⟩], user_address := "a" }
          0).1 = false := by
  refine ⟨rfl, by decide, by decide⟩

/-- C1 amended: when the first non-resolving item of a CreateOrder request has
a syntactically valid product_id that matches no stored product (all earlier
items resolve), the call fails with a 400 client-fault response whose message
identifies that product_id, and the store — in particular the orders
collection — is exactly as before: the sequential per-item checks run before
any insert. -/
theorem create_order_first_missing_product (st : Store) (req : OrderRequest) (now : Nat)
    (pre : List OrderItem) (item : OrderItem) (rest : List OrderItem) (oid : String)
    (hsplit : req.items = pre ++ item :: rest)
    (hpre : ∀ i ∈ pre, itemResolves st i = true)
    (hoid : parseObjectId item.product_id = some oid)
    (hmiss : findProduct st oid = none) :
    create_order st req now =
      (Resp.err 400 ("Product " ++ item.product_id ++ " not found"), st) ∧
    isClientFault (create_order st req now).1 = true := by
  have hc : checkItems st req.items =
      some (Resp.err 400 ("Product " ++ item.product_id ++ " not found")) := by
    rw [hsplit, checkItems_append_of_resolves st pre _ hpre]
    simp only [checkItems, hoid, hmiss]
  constructor
  · unfold create_order
    rw [hc]
  · unfold create_order
    rw [hc]
    rfl

/-- Witness for C1 amended: `stA` with a resolving first item and a
well-formed but absent identifier in the second item. -/
theorem create_order_first_missing_product_witness :
    create_order stA { user_id := "u1", items := [itemA, itemMissing], user_address := "addr" }
        2 =
      (Resp.err 400 ("Product " ++ itemMissing.product_id ++ " not found"), stA) ∧
    isClientFault
      (create_order stA { user_id := "u1", items := [itemA, itemMissing], user_address := "addr" }
          2).1 = true :=
  create_order_first_missing_product stA
    { user_id := "u1", items := [itemA, itemMissing], user_address := "addr" } 2
    [itemA] itemMissing [] "bbbbbbbbbbbbbbbbbbbbbbbb" rfl (by decide) (by decide) (by decide)

/-- C3 counterexample: an order item whose product_id ("zzz") is not a valid
store identifier is answered with a 500 internal-error response carrying the
driver message, not a client-fault response, contradicting the claim as
stated. -/
theorem create_order_invalid_id_cx :
    create_order stA { user_id := "u3", items := [⟨"zzz", 1, 1⟩], user_address := "c" } 0 =
      (Resp.err 500 (invalidOidMsg "zzz"), stA) ∧
    isClientFault
      (create_order stA { user_id := "u3", items := [⟨"zzz", 1, 1⟩], user_address := "c" }
          0).1 = false := by
  refine ⟨by decide, by decide⟩

/-- C3 amended: a syntactically invalid product_id — reached after items that
all resolve — makes CreateOrder fail with a 500 internal-error response whose
detail is the driver's InvalidId message, not a client-fault response; nothing
is persisted (the exception escapes the loop before any insert). -/
theorem create_order_invalid_id_500 (st : Store) (req : OrderRequest) (now : Nat)
    (pre : List OrderItem) (item : OrderItem) (rest : List OrderItem)
    (hsplit : req.items = pre ++ item :: rest)
    (hpre : ∀ i ∈ pre, itemResolves st i = true)
    (hbad : parseObjectId item.product_id = none) :
    create_order st req now = (Resp.err 500 (invalidOidMsg item.product_id), st) ∧
    isClientFault (create_order st req now).1 = false := by
  have hc : checkItems st req.items = some (Resp.err 500 (invalidOidMsg item.product_id)) := by
    rw [hsplit, checkItems_append_of_resolves st pre _ hpre]
    simp only [checkItems, hbad]
  constructor
  · unfold create_order
    rw [hc]
  · unfold create_order
    rw [hc]
    rfl

/-- Witness for C3 amended: `stA` with a resolving first item and an invalid
identifier in the second item. -/
theorem create_order_invalid_id_500_witness :
    create_order stA { user_id := "u4", items := [itemA, ⟨"nope", 3, 2⟩], user_address := "d" }
        1 =
      (Resp.err 500 (invalidOidMsg "nope"), stA) ∧
    isClientFault
      (create_order stA { user_id := "u4", items := [itemA, ⟨"nope", 3, 2⟩], user_address := "d" }
          1).1 = false :=
  create_order_invalid_id_500 stA
    { user_id := "u4", items := [itemA, ⟨"nope", 3, 2⟩], user_address := "d" } 1
    [itemA] ⟨"nope", 3, 2⟩ [] rfl (by decide) (by decide)

/-! Lemmas relating regex search of metacharacter-free patterns to plain
case-insensitive substring containment. -/

/-- A non-wildcard pattern character matches exactly by case-folded equality. -/
theorem chMatch_of_ne_dot (pc c : Char) (h : pc ≠ '.') :
    chMatch pc c = (pc.toLower == c.toLower) := by
  unfold chMatch
  rw [beq_eq_false_iff_ne.mpr h, Bool.false_or]

/-- On a dot-free pattern, anchored matching is case-folded list-prefix
testing. -/
theorem matchFrom_eq_isPrefixOf (p : List Char) (hp : ∀ c ∈ p, c ≠ '.') (s : List Char) :
    matchFrom p s = (p.map Char.toLower).isPrefixOf (s.map Char.toLower) := by
  induction p generalizing s with
  | nil => simp [matchFrom, List.isPrefixOf]
  | cons pc ps ih =>
    cases s with
    | nil => simp [matchFrom]
    | cons c cs =>
      rw [show matchFrom (pc :: ps) (c :: cs) = (chMatch pc c && matchFrom ps cs) from rfl,
        chMatch_of_ne_dot pc c (hp pc (by simp)), ih fun d hd => hp d (by simp [hd])]
      simp [List.isPrefixOf]

/-- On a dot-free pattern, unanchored search is case-folded substring
containment. -/
theorem searchAnywhere_eq_containsSub (p : List Char) (hp : ∀ c ∈ p, c ≠ '.')
    (s : List Char) :
    searchAnywhere p s = containsSub (p.map Char.toLower) (s.map Char.toLower) := by
  induction s with
  | nil => simp [searchAnywhere, containsSub, matchFrom_eq_isPrefixOf p hp]
  | cons c cs ih =>
    simp [searchAnywhere, containsSub, matchFrom_eq_isPrefixOf p hp, ih]

/-- On a pattern free of regex metacharacters, the store's case-insensitive
regex search coincides with case-insensitive substring containment. -/
theorem ciRegexSearch_eq_ciContains (n t : String)
    (h : n.data.all (fun c => !(regexMeta c)) = true) :
    ciRegexSearch n t = ciContains n t := by
  apply searchAnywhere_eq_containsSub
  intro c hc
  have h2 := List.all_eq_true.mp h c hc
  simp only [Bool.not_eq_true'] at h2
  unfold regexMeta at h2
  intro hdot
  subst hdot
  simp at h2

/-- C5 counterexample: with name filter "." the product named "aBc" is
returned although "aBc" does not contain "." as a substring (in any case):
the name filter is a regex pattern match, not substring containment, so the
claim's characterization of the matching set is false. -/
theorem list_products_name_regex_cx :
    list_products stA (some ".") none 10 0 = [product_helper prodA] ∧
    ciContains "." "aBc" = false := by
  refine ⟨by decide, by decide⟩

/-- C5 amended: for a name filter free of regex metacharacters (and non-empty
filters), the matching set of ListProducts is exactly the conjunction the
claim describes: case-insensitive substring containment of the name filter and
exact, case-sensitive equality of the size filter against some sizes entry,
ANDed when both are present. For general name filters the match is the store's
case-insensitive regex search instead. -/
theorem list_products_filter_semantics (st : Store) (n s : String)
    (hn : ¬ n = "") (hs : ¬ s = "")
    (hmeta : n.data.all (fun c => !(regexMeta c)) = true) :
    list_products st (some n) (some s) 0 0 =
      ((st.products.filter fun p =>
        ciContains n p.name && p.sizes.any fun e => e.size == s).map product_helper) ∧
    list_products st (some n) none 0 0 =
      ((st.products.filter fun p => ciContains n p.name).map product_helper) ∧
    list_products st none (some s) 0 0 =
      ((st.products.filter fun p => p.sizes.any fun e => e.size == s).map product_helper) := by
  have hrw : ∀ p : StoredProduct, ciRegexSearch n p.name = ciContains n p.name := fun p =>
    ciRegexSearch_eq_ciContains n p.name hmeta
  have htr : strTruthy (some n) = true := by simp [strTruthy, hn]
  have hts : strTruthy (some s) = true := by simp [strTruthy, hs]
  have hifn : (if strTruthy (some n) then some n else none) = some n := by simp [htr]
  have hifs : (if strTruthy (some s) then some s else none) = some s := by simp [hts]
  have happ : ∀ xs : List StoredProduct, applyLimit 0 xs = xs := fun xs => by
    simp [applyLimit]
  refine ⟨?_, ?_, ?_⟩ <;>
    simp only [list_products, hifn, hifs, happ, List.drop_zero] <;>
    exact congrArg _ (List.filter_congr fun p hp => by
      simp only [productMatches, hrw p, ite_self, Bool.and_true, Bool.true_and])

/-- Witness for C5 amended: the store `stA` with name filter "bC" (matched
case-insensitively inside "aBc") and size filter "M". -/
theorem list_products_filter_semantics_witness :
    list_products stA (some "bC") (some "M") 0 0 =
      ((stA.products.filter fun p =>
        ciContains "bC" p.name && p.sizes.any fun e => e.size == "M").map product_helper) ∧
    list_products stA (some "bC") none 0 0 =
      ((stA.products.filter fun p => ciContains "bC" p.name).map product_helper) ∧
    list_products stA none (some "M") 0 0 =
      ((stA.products.filter fun p => p.sizes.any fun e => e.size == "M").map product_helper) :=
  list_products_filter_semantics stA "bC" "M" (by decide) (by decide) (by decide)

/-- Membership survives removing the limit truncation. -/
theorem mem_of_mem_applyLimit {α : Type} {a : α} {limit : Nat} {xs : List α}
    (h : a ∈ applyLimit limit xs) : a ∈ xs := by
  unfold applyLimit at h
  split at h
  · exact h
  · exact List.mem_of_mem_take h

/-- C6 counterexample: the record returned by ListProducts for `prodA` (whose
stored document does carry `created_at` 7) has exactly the keys product_id,
name, price, description and sizes — `created_at` is not among them,
contradicting the claim that every field of the Product data model including
the creation timestamp is returned. -/
theorem list_products_omits_created_at_cx :
    (list_products stA none none 10 0).map (fun r => r.map Prod.fst) =
      [["product_id", "name", "price", "description", "sizes"]] ∧
    "created_at" ∉ ((list_products stA none none 10 0).headD []).map Prod.fst := by
  refine ⟨by decide, by decide⟩

/-- C6 amended: every record returned by ListProducts is `product_helper` of a
stored product — fully materialized except that `created_at` is omitted by the
response mapping; its keys are exactly product_id, name, price, description
and sizes (no projection is applied at the store query; the field is dropped
only in the mapping). -/
theorem list_products_record_fields (st : Store) (name size : Option String)
    (limit offset : Nat) (r : List (String × JVal))
    (hr : r ∈ list_products st name size limit offset) :
    (∃ p, p ∈ st.products ∧ r = product_helper p) ∧
    r.map Prod.fst = ["product_id", "name", "price", "description", "sizes"] ∧
    "created_at" ∉ r.map Prod.fst := by
  simp only [list_products] at hr
  obtain ⟨p, hp, rfl⟩ := List.mem_map.mp hr
  have hp2 : p ∈ st.products :=
    (List.mem_filter.mp (List.mem_of_mem_drop (mem_of_mem_applyLimit hp))).1
  refine ⟨⟨p, hp2, rfl⟩, rfl, ?_⟩
  show "created_at" ∉ (["product_id", "name", "price", "description", "sizes"] : List String)
  decide

/-- Witness for C6 amended at the record returned for `prodA`. -/
theorem list_products_record_fields_witness :
    (∃ p, p ∈ stA.products ∧ product_helper prodA = product_helper p) ∧
    (product_helper prodA).map Prod.fst =
      ["product_id", "name", "price", "description", "sizes"] ∧
    "created_at" ∉ (product_helper prodA).map Prod.fst :=
  list_products_record_fields stA none none 10 0 (product_helper prodA) (by decide)

end EcomSpec
